import Mathlib

set_option maxRecDepth 8192

/-!
Shallow embedding of `src/app.py` (Wikipedia Page Views Analyzer).

Python strings are modelled as Lean `String`, using `String.toList` where the
code performs character-level work (`startswith`, `split`, `strptime`).
Python exceptions are modelled by the `Exn` type below; `ValueError` covers
both the "InvalidInput" and "FetchError" kinds of the spec, exactly as in the
code, and `otherExn` stands for any non-`ValueError` exception.  The ambient
`functools.cache` on `get_pageviews` is modelled by explicit state passing
(`FetchState`), with an outbound-call counter for the idempotence claims.
The network (`requests.get` / `raise_for_status` / `response.json()['items']`)
is modelled by an environment function returning a `FetchOutcome`.
-/

/-- Python exceptions as observed by `wrapped_process`: `ValueError` (raised by
`extract_title`, `validate_date` and `get_pageviews`) versus anything else. -/
inductive Exn where
  | valueError (msg : String)
  | otherExn (msg : String)
  deriving DecidableEq, Repr

/-- Outcome of one outbound HTTP attempt in `get_pageviews`:
`getError` models `requests.get` itself raising (network failure),
`httpError` models `raise_for_status` raising `HTTPError` (non-success status,
with `str(e)` as message), `parseError` models any failure shaping
`response.json()['items']`, and `success` carries the parsed items, each a
(timestamp, views) pair with the full timestamp string. -/
inductive FetchOutcome where
  | getError (msg : String)
  | httpError (msg : String)
  | parseError (msg : String)
  | success (items : List (String × Nat))
  deriving DecidableEq, Repr

/-- Key of the `functools.cache` on `get_pageviews`: (title, start, end). -/
abbrev CacheKey := String × String × String

/-- State of the `functools.cache` on `get_pageviews`, plus a counter of
outbound HTTP attempts (instrumentation for the idempotence claims). -/
structure FetchState where
  cache : List (CacheKey × List (String × Nat))
  calls : Nat
  deriving DecidableEq, Repr

/-- Ambient environment of one process: `datetime.now().strftime('%Y%m%d')`,
`(datetime.now() - timedelta(days=30)).strftime('%Y%m%d')`, and the network. -/
structure Env where
  now : String
  nowMinus30 : String
  http : String → String → String → FetchOutcome

/-- Python dict lookup (`dict.get`) on the cache association list. -/
def cacheLookup (cache : List (CacheKey × List (String × Nat))) (k : CacheKey) :
    Option (List (String × Nat)) :=
  match cache with
  | [] => none
  | (k', v) :: rest => if k' = k then some v else cacheLookup rest k

/- ## URL Title Extractor (`extract_title`, src/app.py lines 10-13) -/

/-- Python `url.split("wiki/")` on the character list: split at each leftmost
non-overlapping occurrence of `wiki/`. -/
def consHead (c : Char) : List (List Char) → List (List Char)
  | [] => [[c]]
  | f :: fs => (c :: f) :: fs

def splitWiki : List Char → List (List Char)
  | 'w' :: 'i' :: 'k' :: 'i' :: '/' :: rest => [] :: splitWiki rest
  | c :: rest => consHead c (splitWiki rest)
  | [] => [[]]

/-- Model of `extract_title`: check the literal prefix, then take element `[1]`
of `url.split("wiki/")`; a missing element would be an `IndexError`, which is
not a `ValueError`. -/
def extract_title (url : String) : Except Exn String :=
  if ("https://en.wikipedia.org/wiki/".toList).isPrefixOf url.toList then
    match splitWiki url.toList with
    | _ :: f :: _ => .ok (String.mk f)
    | _ => .error (.otherExn "IndexError: list index out of range")
  else .error (.valueError "URL must be from en.wikipedia.org")

/- ## Date Validator (`validate_date`, src/app.py lines 31-36)

CPython `datetime.strptime(date_str, '%Y%m%d')` compiles the format to the
regex `(?P<Y>\d\d\d\d)(?P<m>1[0-2]|0[1-9]|[1-9])(?P<d>3[01]|[12]\d|0[1-9]|[1-9])`,
matches it at the start of the string with backtracking, raises `ValueError`
if the match fails or does not consume the whole string ("unconverted data
remains"), and then builds `datetime(Y, m, d)`, which raises `ValueError` for
an invalid calendar date or a year below 1.  The model below reproduces the
backtracking order of the regex engine: each alternation is tried left to
right, and a longer month alternative is given up only when no day
alternative matches the remainder at all (a day match that merely leaves
unconverted characters is final). -/

/-- Day group `3[01]|[12]\d|0[1-9]|[1-9]` applied to the first two characters;
`none` when no two-character alternative matches. -/
def dayChar2 (c1 c2 : Char) : Option Nat :=
  if c1 = '3' && (c2 = '0' || c2 = '1') then some (30 + (c2.toNat - 48))
  else if (c1 = '1' || c1 = '2') && (48 ≤ c2.toNat && c2.toNat ≤ 57) then
    some ((c1.toNat - 48) * 10 + (c2.toNat - 48))
  else if c1 = '0' && (49 ≤ c2.toNat && c2.toNat ≤ 57) then some (c2.toNat - 48)
  else none

/-- Day group applied to a character list, first matching alternative wins;
returns the day value and the unconsumed remainder. -/
def matchDay : List Char → Option (Nat × List Char)
  | c1 :: c2 :: rest =>
    match dayChar2 c1 c2 with
    | some d => some (d, rest)
    | none =>
      if 49 ≤ c1.toNat && c1.toNat ≤ 57 then some (c1.toNat - 48, c2 :: rest)
      else none
  | [c1] =>
    if 49 ≤ c1.toNat && c1.toNat ≤ 57 then some (c1.toNat - 48, []) else none
  | [] => none

/-- Month group `1[0-2]|0[1-9]` (the two-character alternatives) applied to the
first two characters. -/
def monthChar2 (c1 c2 : Char) : Option Nat :=
  if c1 = '1' && (c2 = '0' || c2 = '1' || c2 = '2') then some (10 + (c2.toNat - 48))
  else if c1 = '0' && (49 ≤ c2.toNat && c2.toNat ≤ 57) then some (c2.toNat - 48)
  else none

/-- Month-then-day matching with the regex engine's backtracking: try a
two-character month first; if no day alternative matches the remainder,
fall back to the one-character month `[1-9]`. -/
def matchMD : List Char → Option (Nat × Nat × List Char)
  | c1 :: c2 :: rest =>
    (match monthChar2 c1 c2 with
     | some m =>
       match matchDay rest with
       | some (d, rest2) => some (m, d, rest2)
       | none =>
         if 49 ≤ c1.toNat && c1.toNat ≤ 57 then
           match matchDay (c2 :: rest) with
           | some (d, rest2) => some (c1.toNat - 48, d, rest2)
           | none => none
         else none
     | none =>
       if 49 ≤ c1.toNat && c1.toNat ≤ 57 then
         match matchDay (c2 :: rest) with
         | some (d, rest2) => some (c1.toNat - 48, d, rest2)
         | none => none
       else none)
  | _ => none

/-- Full `strptime(s, '%Y%m%d')` pattern match: four digits of year, then the
month/day groups, succeeding only when the whole string is consumed. -/
def strptimeYmd (s : String) : Option (Nat × Nat × Nat) :=
  match s.toList with
  | c1 :: c2 :: c3 :: c4 :: rest =>
    if (c1.isDigit && c2.isDigit && c3.isDigit && c4.isDigit) then
      match matchMD rest with
      | some (m, d, []) =>
        some ((((c1.toNat - 48) * 10 + (c2.toNat - 48)) * 10 + (c3.toNat - 48)) * 10
                + (c4.toNat - 48), m, d)
      | _ => none
    else none
  | _ => none

/-- Gregorian leap-year rule used by `datetime`. -/
def isLeap (y : Nat) : Bool := y % 4 = 0 && (y % 100 ≠ 0 || y % 400 = 0)

/-- Number of days in a month, as enforced by the `datetime` constructor. -/
def daysInMonth (y m : Nat) : Nat :=
  if m = 2 then (if isLeap y then 29 else 28)
  else if m = 4 || m = 6 || m = 9 || m = 11 then 30
  else 31

/-- Model of `validate_date`: `strptime` parse followed by the `datetime`
constructor's range checks; on success the input string is returned
unchanged, otherwise `ValueError("Date must be in YYYYMMDD format")`. -/
def validate_date (date_str : String) : Except Exn String :=
  match strptimeYmd date_str with
  | some (y, m, d) =>
    if 1 ≤ y && 1 ≤ m && m ≤ 12 && 1 ≤ d && d ≤ daysInMonth y m then .ok date_str
    else .error (.valueError "Date must be in YYYYMMDD format")
  | none => .error (.valueError "Date must be in YYYYMMDD format")

/- ## Pageview Fetcher (`get_pageviews`, src/app.py lines 16-28) -/

/-- Body of `get_pageviews` without the cache: one outbound attempt, the
`try/except` mapping `HTTPError` to `ValueError("API error: ...")` and every
other failure to `ValueError("Error fetching pageviews: ...")`; on success
each item becomes `(item['timestamp'][:8], item['views'])`. -/
def fetch_raw (http : String → String → String → FetchOutcome)
    (title start_date end_date : String) : Except Exn (List (String × Nat)) :=
  match http title start_date end_date with
  | .success items => .ok (items.map fun it => (it.1.take 8, it.2))
  | .httpError m => .error (.valueError ("API error: " ++ m))
  | .getError m => .error (.valueError ("Error fetching pageviews: " ++ m))
  | .parseError m => .error (.valueError ("Error fetching pageviews: " ++ m))

/-- Model of `@cache def get_pageviews`: on a cache hit return the stored
value with no outbound attempt; on a miss perform the outbound attempt
(counted in `calls`), caching the result only when it succeeds —
`functools.cache` stores nothing when the wrapped call raises. -/
def get_pageviews (http : String → String → String → FetchOutcome)
    (st : FetchState) (title start_date end_date : String) :
    Except Exn (List (String × Nat)) × FetchState :=
  match cacheLookup st.cache (title, start_date, end_date) with
  | some v => (.ok v, st)
  | none =>
    match fetch_raw http title start_date end_date with
    | .ok v =>
      (.ok v, ⟨((title, start_date, end_date), v) :: st.cache, st.calls + 1⟩)
    | .error e => (.error e, ⟨st.cache, st.calls + 1⟩)

/- ## Merger (src/app.py lines 60-71) -/

/-- Python `dict(pairs)` lookup: the value of the last pair whose key equals
`k` (later pairs overwrite earlier ones), `none` when no pair matches. -/
def dictLookup (pairs : List (String × Nat)) (k : String) : Option Nat :=
  pairs.foldl (fun acc p => if p.1 = k then some p.2 else acc) none

/-- Python `dict(pairs).get(k, 0)`. -/
def dictGet (pairs : List (String × Nat)) (k : String) : Nat :=
  (dictLookup pairs k).getD 0

/-- Python `sorted(set(dates1) | set(dates2))` where `datesN` are the first
components of the fetched series. -/
def allDates (v1 v2 : List (String × Nat)) : List String :=
  ((v1.map Prod.fst).toFinset ∪ (v2.map Prod.fst).toFinset).sort (· ≤ ·)

/-- Rows of the merged DataFrame: one row per union date, in sorted order,
with `view_dictN.get(d, 0)` in the two count columns. -/
def mergeRows (v1 v2 : List (String × Nat)) : List (String × Nat × Nat) :=
  (allDates v1 v2).map fun d => (d, dictGet v1 d, dictGet v2 d)

/- ## Presenter and Request Handler (src/app.py lines 39-98 and 140-147) -/

/-- Merged `pandas.DataFrame`: the two labelled count columns and the rows. -/
structure DataFrame where
  col1 : String
  col2 : String
  rows : List (String × Nat × Nat)
  deriving DecidableEq, Repr

/-- Chart description produced by `px.line`: x column, y column labels, data. -/
structure Chart where
  xCol : String
  yCols : List String
  data : List (String × Nat × Nat)
  deriving DecidableEq, Repr

/-- Fallback `pd.DataFrame()` returned by `wrapped_process` on failure:
no columns, no rows. -/
def emptyDF : DataFrame := ⟨"", "", []⟩

/-- Default-date substitution at the top of `process_inputs`
(`if not start_date or not end_date`): when either input is the empty string,
both are replaced by the generated defaults. -/
def applyDefaults (start_date end_date dflt_start dflt_end : String) :
    String × String :=
  if start_date = "" ∨ end_date = "" then (dflt_start, dflt_end)
  else (start_date, end_date)

/-- Body of `process_inputs` after default substitution: validate both dates,
extract both titles, fetch both series through the cache, then build the
DataFrame and the chart.  Each step short-circuits by raising. -/
def process_core (env : Env) (st : FetchState)
    (url1 url2 start_date end_date : String) :
    Except Exn (DataFrame × Chart) × FetchState :=
  match validate_date start_date with
  | .error e => (.error e, st)
  | .ok sd =>
    match validate_date end_date with
    | .error e => (.error e, st)
    | .ok ed =>
      match extract_title url1 with
      | .error e => (.error e, st)
      | .ok title1 =>
        match extract_title url2 with
        | .error e => (.error e, st)
        | .ok title2 =>
          match get_pageviews env.http st title1 sd ed with
          | (.error e, st1) => (.error e, st1)
          | (.ok views1, st1) =>
            match get_pageviews env.http st1 title2 sd ed with
            | (.error e, st2) => (.error e, st2)
            | (.ok views2, st2) =>
              (.ok (⟨title1 ++ " Views", title2 ++ " Views", mergeRows views1 views2⟩,
                    ⟨"Date", [title1 ++ " Views", title2 ++ " Views"],
                     mergeRows views1 views2⟩), st2)

/-- Model of `process_inputs`: default substitution, then the linear body. -/
def process_inputs (env : Env) (st : FetchState)
    (url1 url2 start_date end_date : String) :
    Except Exn (DataFrame × Chart) × FetchState :=
  process_core env st url1 url2
    (applyDefaults start_date end_date env.nowMinus30 env.now).1
    (applyDefaults start_date end_date env.nowMinus30 env.now).2

/-- Model of `wrapped_process`: `ValueError` becomes `"Error: <msg>"`, any
other exception becomes `"Unexpected error: <msg>"`, success yields the
populated DataFrame, the chart and the fixed success message. -/
def wrapped_process (env : Env) (st : FetchState)
    (url1 url2 start_date end_date : String) :
    (DataFrame × Option Chart × String) × FetchState :=
  match process_inputs env st url1 url2 start_date end_date with
  | (.ok (df, fig), st') => ((df, some fig, "Analysis completed successfully!"), st')
  | (.error (.valueError m), st') => ((emptyDF, none, "Error: " ++ m), st')
  | (.error (.otherExn m), st') => ((emptyDF, none, "Unexpected error: " ++ m), st')

/- ## Helper lemmas about the Python dict model -/

/-- Appending one pair to a dict source: the new pair overrides on key match. -/
lemma dictLookup_concat (l : List (String × Nat)) (p : String × Nat) (k : String) :
    dictLookup (l ++ [p]) k = if p.1 = k then some p.2 else dictLookup l k := by
  simp [dictLookup, List.foldl_append]

/-- A key absent from every pair looks up to `none`. -/
lemma dictLookup_eq_none (l : List (String × Nat)) (k : String)
    (h : ∀ p ∈ l, p.1 ≠ k) : dictLookup l k = none := by
  induction l using List.reverseRecOn with
  | nil => rfl
  | append_singleton l p ih =>
    rw [dictLookup_concat, if_neg (h p (by simp))]
    exact ih fun q hq => h q (by simp [hq])

/-- The value of the last pair with key `k` wins. -/
lemma dictLookup_last (a b : List (String × Nat)) (k : String) (c : Nat)
    (h : ∀ p ∈ b, p.1 ≠ k) : dictLookup (a ++ (k, c) :: b) k = some c := by
  induction b using List.reverseRecOn with
  | nil => rw [dictLookup_concat]; simp
  | append_singleton b p ih =>
    rw [show a ++ (k, c) :: (b ++ [p]) = (a ++ (k, c) :: b) ++ [p] by simp,
        dictLookup_concat, if_neg (h p (by simp))]
    exact ih fun q hq => h q (by simp [hq])

/-- With no duplicate keys, lookup returns the unique stored value. -/
lemma dictLookup_nodup (l : List (String × Nat)) (k : String) (c : Nat)
    (hn : (l.map Prod.fst).Nodup) (hm : (k, c) ∈ l) : dictLookup l k = some c := by
  obtain ⟨a, b, rfl⟩ := List.append_of_mem hm
  refine dictLookup_last a b k c fun p hp hpk => ?_
  have hk : k ∉ b.map Prod.fst := by
    simp only [List.map_append, List.map_cons] at hn
    exact (List.nodup_cons.mp (List.nodup_append.mp hn).2.1).1
  exact hk (hpk ▸ List.mem_map_of_mem Prod.fst hp)

/- ## Helper lemmas about the merged table -/

lemma allDates_mem (v1 v2 : List (String × Nat)) (d : String) :
    d ∈ allDates v1 v2 ↔ d ∈ v1.map Prod.fst ∨ d ∈ v2.map Prod.fst := by
  simp [allDates, Finset.mem_sort]

lemma mergeRows_map_fst (v1 v2 : List (String × Nat)) :
    (mergeRows v1 v2).map (fun r => r.1) = allDates v1 v2 := by
  have h : ((fun r : String × Nat × Nat => r.1)
      ∘ fun d => (d, dictGet v1 d, dictGet v2 d)) = id := rfl
  rw [mergeRows, List.map_map, h, List.map_id]

lemma mem_mergeRows (v1 v2 : List (String × Nat)) (r : String × Nat × Nat)
    (h : r ∈ mergeRows v1 v2) :
    r = (r.1, dictGet v1 r.1, dictGet v2 r.1) ∧ r.1 ∈ allDates v1 v2 := by
  obtain ⟨d, hd, rfl⟩ := List.mem_map.mp h
  exact ⟨rfl, hd⟩

lemma dictGet_absent (l : List (String × Nat)) (k : String)
    (h : k ∉ l.map Prod.fst) : dictGet l k = 0 := by
  rw [dictGet, dictLookup_eq_none]
  · rfl
  · exact fun p hp hpk => h (hpk ▸ List.mem_map_of_mem Prod.fst hp)

lemma dictGet_present (l : List (String × Nat)) (k : String) (c : Nat)
    (hn : (l.map Prod.fst).Nodup) (hm : (k, c) ∈ l) : dictGet l k = c := by
  rw [dictGet, dictLookup_nodup l k c hn hm]; rfl

/-- C1: for two finite date→count mappings (series without duplicate dates),
the merged table has one row per date in the union of the key sets, with no
duplicate dates and exactly `card (union)` rows, the rows are strictly
ascending by date, each row's two counts are the respective series' value for
that date or 0 when the date is absent from that series, and empty inputs
produce an empty table. -/
theorem merger_correct (v1 v2 : List (String × Nat))
    (h1 : (v1.map Prod.fst).Nodup) (h2 : (v2.map Prod.fst).Nodup) :
    (mergeRows v1 v2).length
        = ((v1.map Prod.fst).toFinset ∪ (v2.map Prod.fst).toFinset).card
    ∧ ((mergeRows v1 v2).map fun r => r.1).Nodup
    ∧ ((mergeRows v1 v2).map fun r => r.1).Sorted (· < ·)
    ∧ (∀ r ∈ mergeRows v1 v2,
        (∀ c, (r.1, c) ∈ v1 → r.2.1 = c)
        ∧ (r.1 ∉ v1.map Prod.fst → r.2.1 = 0)
        ∧ (∀ c, (r.1, c) ∈ v2 → r.2.2 = c)
        ∧ (r.1 ∉ v2.map Prod.fst → r.2.2 = 0))
    ∧ (∀ d, (∃ a b, (d, a, b) ∈ mergeRows v1 v2)
        ↔ d ∈ v1.map Prod.fst ∨ d ∈ v2.map Prod.fst)
    ∧ mergeRows [] ([] : List (String × Nat)) = [] := by
  refine ⟨?_, ?_, ?_, ?_, ?_, ?_⟩
  · simp [mergeRows, allDates, Finset.length_sort]
  · rw [mergeRows_map_fst]; exact Finset.sort_nodup _ _
  · rw [mergeRows_map_fst]; exact Finset.sort_sorted_lt _
  · intro r hr
    obtain ⟨hre, _⟩ := mem_mergeRows v1 v2 r hr
    refine ⟨?_, ?_, ?_, ?_⟩
    · intro c hc
      rw [hre]
      exact dictGet_present v1 r.1 c h1 hc
    · intro hd
      rw [hre]
      exact dictGet_absent v1 r.1 hd
    · intro c hc
      rw [hre]
      exact dictGet_present v2 r.1 c h2 hc
    · intro hd
      rw [hre]
      exact dictGet_absent v2 r.1 hd
  · intro d
    constructor
    · rintro ⟨a, b, hab⟩
      exact (allDates_mem v1 v2 d).mp (mem_mergeRows v1 v2 (d, a, b) hab).2
    · intro hd
      exact ⟨dictGet v1 d, dictGet v2 d,
        List.mem_map.mpr ⟨d, (allDates_mem v1 v2 d).mpr hd, rfl⟩⟩
  · simp [mergeRows, allDates]

/-- C1 witness: the merger property instantiated on two concrete mappings. -/
theorem merger_correct_witness :
    ((([("20240102", 5), ("20240101", 3)] : List (String × Nat)).map Prod.fst).Nodup
     ∧ (([("20240102", 7), ("20240103", 2)] : List (String × Nat)).map Prod.fst).Nodup)
    ∧ ((mergeRows [("20240102", 5), ("20240101", 3)] [("20240102", 7), ("20240103", 2)]).length
        = (([("20240102", 5), ("20240101", 3)].map Prod.fst).toFinset
            ∪ ([("20240102", 7), ("20240103", 2)].map Prod.fst).toFinset).card
    ∧ ((mergeRows [("20240102", 5), ("20240101", 3)] [("20240102", 7), ("20240103", 2)]).map fun r => r.1).Nodup
    ∧ ((mergeRows [("20240102", 5), ("20240101", 3)] [("20240102", 7), ("20240103", 2)]).map fun r => r.1).Sorted (· < ·)
    ∧ (∀ r ∈ mergeRows [("20240102", 5), ("20240101", 3)] [("20240102", 7), ("20240103", 2)],
        (∀ c, (r.1, c) ∈ [("20240102", 5), ("20240101", 3)] → r.2.1 = c)
        ∧ (r.1 ∉ [("20240102", 5), ("20240101", 3)].map Prod.fst → r.2.1 = 0)
        ∧ (∀ c, (r.1, c) ∈ [("20240102", 7), ("20240103", 2)] → r.2.2 = c)
        ∧ (r.1 ∉ [("20240102", 7), ("20240103", 2)].map Prod.fst → r.2.2 = 0))
    ∧ (∀ d, (∃ a b, (d, a, b) ∈ mergeRows [("20240102", 5), ("20240101", 3)] [("20240102", 7), ("20240103", 2)])
        ↔ d ∈ [("20240102", 5), ("20240101", 3)].map Prod.fst
          ∨ d ∈ [("20240102", 7), ("20240103", 2)].map Prod.fst)
    ∧ mergeRows [] ([] : List (String × Nat)) = []) :=
  ⟨⟨by decide, by decide⟩,
   merger_correct [("20240102", 5), ("20240101", 3)] [("20240102", 7), ("20240103", 2)]
     (by decide) (by decide)⟩

/-- C10: even when a fetched series repeats a date key, the merged table has
exactly one row per distinct date, and the count used for that series on a
repeated date is the one of the last occurrence in the series. -/
theorem merger_duplicate_last (v1 v2 : List (String × Nat)) (d : String) (c : Nat)
    (a b : List (String × Nat)) (h1 : v1 = a ++ (d, c) :: b)
    (h2 : ∀ p ∈ b, p.1 ≠ d) :
    ((mergeRows v1 v2).map fun r => r.1).Nodup
    ∧ (mergeRows v1 v2).length
        = ((v1.map Prod.fst).toFinset ∪ (v2.map Prod.fst).toFinset).card
    ∧ dictGet v1 d = c
    ∧ (d, c, dictGet v2 d) ∈ mergeRows v1 v2 := by
  have hget : dictGet v1 d = c := by
    rw [h1, dictGet, dictLookup_last a b d c h2]; rfl
  refine ⟨?_, ?_, hget, ?_⟩
  · rw [mergeRows_map_fst]; exact Finset.sort_nodup _ _
  · simp [mergeRows, allDates, Finset.length_sort]
  · have hd : d ∈ allDates v1 v2 := by
      rw [allDates_mem]
      exact Or.inl (by rw [h1]; simp)
    rw [← hget]
    exact List.mem_map.mpr ⟨d, hd, rfl⟩

/-- C10 witness: a series listing date 20240101 twice (3 then 9); the merged
table keeps one row with the last value 9. -/
theorem merger_duplicate_last_witness :
    (([("20240101", 3), ("20240101", 9)] : List (String × Nat))
        = [("20240101", 3)] ++ ("20240101", 9) :: []
     ∧ ∀ p ∈ ([] : List (String × Nat)), p.1 ≠ "20240101")
    ∧ (((mergeRows [("20240101", 3), ("20240101", 9)] []).map fun r => r.1).Nodup
    ∧ (mergeRows [("20240101", 3), ("20240101", 9)] []).length
        = (([("20240101", 3), ("20240101", 9)].map Prod.fst).toFinset
            ∪ (([] : List (String × Nat)).map Prod.fst).toFinset).card
    ∧ dictGet [("20240101", 3), ("20240101", 9)] "20240101" = 9
    ∧ ("20240101", 9, dictGet [] "20240101")
        ∈ mergeRows [("20240101", 3), ("20240101", 9)] []) :=
  ⟨⟨by decide, by decide⟩,
   merger_duplicate_last [("20240101", 3), ("20240101", 9)] [] "20240101" 9
     [("20240101", 3)] [] (by decide) (by decide)⟩

/- ## The 8-digit YYYYMMDD encoding, for stating the Validator claim -/

/-- Decimal digit character for a value 0-9 (values above 9 clamp to '9';
the lemmas below only use it for digits). -/
def digitChar (n : Nat) : Char :=
  match n with
  | 0 => '0' | 1 => '1' | 2 => '2' | 3 => '3' | 4 => '4'
  | 5 => '5' | 6 => '6' | 7 => '7' | 8 => '8' | _ => '9'

/-- Two-digit zero-padded rendering of a number below 100. -/
def fmt2 (n : Nat) : List Char := [digitChar (n / 10), digitChar (n % 10)]

/-- Four-digit zero-padded rendering of a number below 10000. -/
def fmt4 (n : Nat) : List Char :=
  [digitChar (n / 1000), digitChar (n / 100 % 10), digitChar (n / 10 % 10),
   digitChar (n % 10)]

/-- The canonical 8-digit `YYYYMMDD` string of a (year, month, day) triple. -/
def fmtYmd8 (y m d : Nat) : String := String.mk (fmt4 y ++ (fmt2 m ++ fmt2 d))

lemma digitChar_isDigit (n : Nat) : (digitChar n).isDigit = true := by
  unfold digitChar
  split <;> decide

lemma digitChar_toNat (n : Nat) (h : n ≤ 9) : (digitChar n).toNat = 48 + n := by
  interval_cases n <;> rfl

lemma matchDay_fmt2 (d : Nat) (h1 : 1 ≤ d) (h2 : d ≤ 31) :
    matchDay (fmt2 d) = some (d, []) := by
  interval_cases d <;> rfl

lemma matchMD_month2 (c1 c2 : Char) (m : Nat) (rest : List Char) (d : Nat)
    (hm : monthChar2 c1 c2 = some m) (hd : matchDay rest = some (d, [])) :
    matchMD (c1 :: c2 :: rest) = some (m, d, []) := by
  simp [matchMD, hm, hd]

lemma matchMD_fmt (m d : Nat) (hm1 : 1 ≤ m) (hm2 : m ≤ 12) (hd1 : 1 ≤ d)
    (hd2 : d ≤ 31) : matchMD (fmt2 m ++ fmt2 d) = some (m, d, []) := by
  interval_cases m <;>
    exact matchMD_month2 _ _ _ _ _ (by decide) (matchDay_fmt2 d hd1 hd2)

lemma strptimeYmd_fmt (y m d : Nat) (hy : y ≤ 9999) (hm1 : 1 ≤ m) (hm2 : m ≤ 12)
    (hd1 : 1 ≤ d) (hd2 : d ≤ 31) :
    strptimeYmd (fmtYmd8 y m d) = some (y, m, d) := by
  have htl : (fmtYmd8 y m d).toList
      = digitChar (y / 1000) :: digitChar (y / 100 % 10) :: digitChar (y / 10 % 10)
        :: digitChar (y % 10) :: (fmt2 m ++ fmt2 d) := rfl
  rw [strptimeYmd, htl]
  simp only [digitChar_isDigit, Bool.and_self, if_true]
  rw [matchMD_fmt m d hm1 hm2 hd1 hd2]
  show some _ = some (y, m, d)
  have e1 : (digitChar (y / 1000)).toNat = 48 + y / 1000 :=
    digitChar_toNat _ (by omega)
  have e2 : (digitChar (y / 100 % 10)).toNat = 48 + y / 100 % 10 :=
    digitChar_toNat _ (by omega)
  have e3 : (digitChar (y / 10 % 10)).toNat = 48 + y / 10 % 10 :=
    digitChar_toNat _ (by omega)
  have e4 : (digitChar (y % 10)).toNat = 48 + y % 10 :=
    digitChar_toNat _ (by omega)
  congr 1
  rw [Prod.ext_iff]
  constructor
  · show _ = y
    omega
  · rfl

lemma daysInMonth_le (y m : Nat) : daysInMonth y m ≤ 31 := by
  unfold daysInMonth
  split
  · split <;> omega
  · split <;> omega

/-- C3 (amended): every 8-digit `YYYYMMDD` encoding of a valid calendar date is
accepted by `validate_date` and returned unchanged, and every accepted string
is returned unchanged; every string whose `strptime` parse fails raises
`ValueError("Date must be in YYYYMMDD format")`, and so does every string
that parses but encodes an invalid calendar date (a year below `datetime`'s
minimum of 1, a month outside 1-12, or a day outside the month's range, such
as "20240230") — but acceptance is not limited to 8-digit strings (see
`validate_date_counterexample`). -/
theorem validate_date_spec (y m d : Nat) (hy1 : 1 ≤ y) (hy2 : y ≤ 9999)
    (hm1 : 1 ≤ m) (hm2 : m ≤ 12) (hd1 : 1 ≤ d) (hd2 : d ≤ daysInMonth y m) :
    validate_date (fmtYmd8 y m d) = .ok (fmtYmd8 y m d)
    ∧ (∀ s r, validate_date s = .ok r → r = s)
    ∧ (∀ s, strptimeYmd s = none →
        validate_date s = .error (.valueError "Date must be in YYYYMMDD format"))
    ∧ (∀ s y2 m2 d2, strptimeYmd s = some (y2, m2, d2) →
        ¬(1 ≤ y2 ∧ 1 ≤ m2 ∧ m2 ≤ 12 ∧ 1 ≤ d2 ∧ d2 ≤ daysInMonth y2 m2) →
        validate_date s = .error (.valueError "Date must be in YYYYMMDD format"))
    ∧ validate_date "20240230" = .error (.valueError "Date must be in YYYYMMDD format") := by
  refine ⟨?_, ?_, ?_, ?_, ?_⟩
  · unfold validate_date
    rw [strptimeYmd_fmt y m d hy2 hm1 hm2 hd1 (hd2.trans (daysInMonth_le y m))]
    simp [hy1, hm1, hm2, hd1, hd2]
  · intro s r h
    unfold validate_date at h
    split at h
    · split at h
      · exact (Except.ok.inj h).symm
      · exact absurd h (by simp)
    · exact absurd h (by simp)
  · intro s hs
    unfold validate_date
    rw [hs]
  · intro s y2 m2 d2 hs hbad
    unfold validate_date
    rw [hs]
    dsimp only
    split
    · rename_i hcond
      exfalso
      apply hbad
      simp only [Bool.and_eq_true, decide_eq_true_eq] at hcond
      exact ⟨hcond.1.1.1.1, hcond.1.1.1.2, hcond.1.1.2, hcond.1.2, hcond.2⟩
    · rfl
  · rfl

/-- C3 counterexample: the 7-character string "2024111" is not an 8-digit
`YYYYMMDD` encoding, yet `validate_date` accepts it and returns it unchanged
(CPython parses it as November 1, 2024, since `%m` and `%d` also match single
digits). -/
theorem validate_date_counterexample :
    validate_date "2024111" = .ok "2024111" ∧ "2024111".length = 7 := ⟨rfl, rfl⟩

/-- C3 witness: the amended Validator property at 2024-02-29 (a leap day). -/
theorem validate_date_spec_witness :
    (1 ≤ 2024 ∧ 2024 ≤ 9999 ∧ 1 ≤ 2 ∧ 2 ≤ 12 ∧ 1 ≤ 29 ∧ 29 ≤ daysInMonth 2024 2)
    ∧ (validate_date (fmtYmd8 2024 2 29) = .ok (fmtYmd8 2024 2 29)
       ∧ (∀ s r, validate_date s = .ok r → r = s)
       ∧ (∀ s, strptimeYmd s = none →
           validate_date s = .error (.valueError "Date must be in YYYYMMDD format"))
       ∧ (∀ s y2 m2 d2, strptimeYmd s = some (y2, m2, d2) →
           ¬(1 ≤ y2 ∧ 1 ≤ m2 ∧ m2 ≤ 12 ∧ 1 ≤ d2 ∧ d2 ≤ daysInMonth y2 m2) →
           validate_date s = .error (.valueError "Date must be in YYYYMMDD format"))
       ∧ validate_date "20240230"
           = .error (.valueError "Date must be in YYYYMMDD format")) :=
  ⟨⟨by decide, by decide, by decide, by decide, by decide, by decide⟩,
   validate_date_spec 2024 2 29 (by decide) (by decide) (by decide) (by decide)
     (by decide) (by decide)⟩

/- ## Lemmas about the URL split -/

/-- A string with no occurrence of `wiki/` splits into a single field. -/
lemma splitWiki_no_sep (t : List Char)
    (h : ∀ a b, t ≠ a ++ 'w' :: 'i' :: 'k' :: 'i' :: '/' :: b) :
    splitWiki t = [t] := by
  induction t using splitWiki.induct with
  | case1 rest => exact absurd rfl (h [] rest)
  | case2 c rest hne ih =>
    have hrest : ∀ a b, rest ≠ a ++ 'w' :: 'i' :: 'k' :: 'i' :: '/' :: b := by
      intro a b hab
      exact h (c :: a) b (by rw [hab]; rfl)
    rw [splitWiki.eq_def]
    split
    · rename_i r heq
      exact absurd heq (h [] r)
    · rename_i c2 rest2 hne2 heq
      obtain ⟨rfl, rfl⟩ : c = c2 ∧ rest = rest2 := by
        injection heq with h1 h2
        exact ⟨h1, h2⟩
      rw [ih hrest]
      rfl
    · rename_i heq
      exact absurd heq (by simp)
  | case3 => rfl

/-- Splitting a URL that is the required prefix followed by `t`: the first
field is everything before the path's `wiki/`, the rest is the split of `t`. -/
lemma splitWiki_base (t : List Char) :
    splitWiki ("https://en.wikipedia.org/wiki/".toList ++ t)
      = "https://en.wikipedia.org/".toList :: splitWiki t := rfl

set_option maxRecDepth 4096 in
/-- C4 (amended): a URL not starting with the literal prefix raises
`ValueError("URL must be from en.wikipedia.org")`; a URL that is the prefix
followed by a title containing no further occurrence of `wiki/` yields
exactly that title.  (When the remainder does contain `wiki/`, the code does
not return the whole remainder: see `extract_title_counterexample`.) -/
theorem extract_title_spec (url : String) (t : List Char)
    (hbad : ("https://en.wikipedia.org/wiki/".toList).isPrefixOf url.toList = false)
    (hsep : ∀ a b, t ≠ a ++ 'w' :: 'i' :: 'k' :: 'i' :: '/' :: b) :
    extract_title url = .error (.valueError "URL must be from en.wikipedia.org")
    ∧ extract_title (String.mk ("https://en.wikipedia.org/wiki/".toList ++ t))
        = .ok (String.mk t) := by
  constructor
  · unfold extract_title
    rw [hbad]
    rfl
  · have hpre : ("https://en.wikipedia.org/wiki/".toList).isPrefixOf
        ("https://en.wikipedia.org/wiki/".toList ++ t) = true :=
      List.isPrefixOf_iff_prefix.mpr (List.prefix_append _ _)
    unfold extract_title
    rw [show (String.mk ("https://en.wikipedia.org/wiki/".toList ++ t)).toList
          = "https://en.wikipedia.org/wiki/".toList ++ t from rfl,
        hpre, if_pos rfl, splitWiki_base t, splitWiki_no_sep t hsep]

/-- C4 counterexample: for the URL whose title part is `A/wiki/B`, the
substring after the `wiki/` path segment is `A/wiki/B` (as the drop of the
prefix shows), but `extract_title` returns only `A/` because Python's
`split("wiki/")[1]` stops at the next `wiki/` occurrence. -/
theorem extract_title_counterexample :
    extract_title "https://en.wikipedia.org/wiki/A/wiki/B" = .ok "A/"
    ∧ ("https://en.wikipedia.org/wiki/A/wiki/B".drop
        "https://en.wikipedia.org/wiki/".length) = "A/wiki/B"
    ∧ "A/" ≠ "A/wiki/B" := ⟨rfl, rfl, by decide⟩

/-- C4 witness: the amended Extractor property on a non-prefixed URL and on
the title `Foo`. -/
theorem extract_title_spec_witness :
    (("https://en.wikipedia.org/wiki/".toList).isPrefixOf "http://x".toList = false
     ∧ ∀ a b, "Foo".toList ≠ a ++ 'w' :: 'i' :: 'k' :: 'i' :: '/' :: b)
    ∧ (extract_title "http://x" = .error (.valueError "URL must be from en.wikipedia.org")
       ∧ extract_title (String.mk ("https://en.wikipedia.org/wiki/".toList ++ "Foo".toList))
           = .ok (String.mk "Foo".toList)) :=
  ⟨⟨by decide, by
      intro a b hab
      have hlen := congrArg List.length hab
      rw [show ("Foo".toList).length = 3 from rfl] at hlen
      simp only [List.length_append, List.length_cons] at hlen
      omega⟩,
   extract_title_spec "http://x" "Foo".toList (by decide) (by
      intro a b hab
      have hlen := congrArg List.length hab
      rw [show ("Foo".toList).length = 3 from rfl] at hlen
      simp only [List.length_append, List.length_cons] at hlen
      omega)⟩

/- ## Request Handler claims -/

/-- C2 (amended): the defaults (start = current date minus 30 days, end =
current date, both already formatted `YYYYMMDD` in the environment) are
substituted whenever at least one of the two date inputs is empty — in that
case both inputs are replaced, so the whole submission behaves as if both had
been empty; only when both inputs are non-empty are the supplied strings kept
and used as given. -/
theorem process_default_dates (env : Env) (st : FetchState) (u1 u2 sd ed : String)
    (h : sd = "" ∨ ed = "") :
    applyDefaults sd ed env.nowMinus30 env.now = (env.nowMinus30, env.now)
    ∧ process_inputs env st u1 u2 sd ed = process_inputs env st u1 u2 "" ""
    ∧ (∀ sd2 ed2 : String, sd2 ≠ "" → ed2 ≠ "" →
        applyDefaults sd2 ed2 env.nowMinus30 env.now = (sd2, ed2)
        ∧ process_inputs env st u1 u2 sd2 ed2 = process_core env st u1 u2 sd2 ed2) := by
  have h1 : applyDefaults sd ed env.nowMinus30 env.now = (env.nowMinus30, env.now) := by
    unfold applyDefaults
    rw [if_pos h]
  refine ⟨h1, ?_, ?_⟩
  · unfold process_inputs
    rw [h1]
    rfl
  · intro sd2 ed2 h2 h3
    have h4 : applyDefaults sd2 ed2 env.nowMinus30 env.now = (sd2, ed2) := by
      unfold applyDefaults
      rw [if_neg]
      push_neg
      exact ⟨h2, h3⟩
    refine ⟨h4, ?_⟩
    unfold process_inputs
    rw [h4]

/-- Environment for the C2 counterexample: the network answers successfully
exactly for the default date range, and with an HTTP error otherwise. -/
def envC2 : Env :=
  ⟨"19990131", "19990101",
   fun _ s e =>
     if s = "19990101" ∧ e = "19990131" then .success [("19990101ab", 4)]
     else .httpError "wrong dates"⟩

/-- C2 counterexample: with an empty start input and the non-empty end input
"20240101", the substitution fires anyway (the code tests `or`, not `and`),
both dates are replaced by the defaults, and the supplied end date is
discarded: the submission succeeds even though the network only accepts the
default range. -/
theorem process_default_dates_counterexample :
    applyDefaults "" "20240101" "19990101" "19990131" = ("19990101", "19990131")
    ∧ (applyDefaults "" "20240101" "19990101" "19990131").2 ≠ "20240101"
    ∧ (wrapped_process envC2 ⟨[], 0⟩ "https://en.wikipedia.org/wiki/A"
        "https://en.wikipedia.org/wiki/B" "" "20240101").1.2.2
        = "Analysis completed successfully!" :=
  ⟨rfl, by decide, rfl⟩

/-- Environment for witnesses that never reach a successful fetch. -/
def envW : Env := ⟨"20250101", "20241202", fun _ _ _ => .httpError "x"⟩

/-- C2 witness: the amended default-substitution property at an empty start
input and a non-empty end input. -/
theorem process_default_dates_witness :
    ("" = "" ∨ "20240101" = "")
    ∧ (applyDefaults "" "20240101" envW.nowMinus30 envW.now = (envW.nowMinus30, envW.now)
       ∧ process_inputs envW ⟨[], 0⟩ "u1" "u2" "" "20240101"
           = process_inputs envW ⟨[], 0⟩ "u1" "u2" "" ""
       ∧ (∀ sd2 ed2 : String, sd2 ≠ "" → ed2 ≠ "" →
           applyDefaults sd2 ed2 envW.nowMinus30 envW.now = (sd2, ed2)
           ∧ process_inputs envW ⟨[], 0⟩ "u1" "u2" sd2 ed2
               = process_core envW ⟨[], 0⟩ "u1" "u2" sd2 ed2)) :=
  ⟨Or.inl rfl, process_default_dates envW ⟨[], 0⟩ "u1" "u2" "" "20240101" (Or.inl rfl)⟩

/-- C5: the handler is total — every submission produces exactly the success
triple, or the empty table with no chart and an `"Error: <msg>"` status when
the pipeline raised a `ValueError` (InvalidInput or FetchError), or the empty
table with no chart and an `"Unexpected error: <msg>"` status for any other
exception; the status string always has one of these three shapes. -/
theorem wrapped_process_spec (env : Env) (st : FetchState) (u1 u2 sd ed : String) :
    (wrapped_process env st u1 u2 sd ed).1
      = (match (process_inputs env st u1 u2 sd ed).1 with
         | .ok (df, fig) => (df, some fig, "Analysis completed successfully!")
         | .error (.valueError m) => (emptyDF, none, "Error: " ++ m)
         | .error (.otherExn m) => (emptyDF, none, "Unexpected error: " ++ m))
    ∧ ((wrapped_process env st u1 u2 sd ed).1.2.2 = "Analysis completed successfully!"
       ∨ (∃ m, (wrapped_process env st u1 u2 sd ed).1 = (emptyDF, none, "Error: " ++ m))
       ∨ (∃ m, (wrapped_process env st u1 u2 sd ed).1
            = (emptyDF, none, "Unexpected error: " ++ m))) := by
  rcases hp : process_inputs env st u1 u2 sd ed with ⟨r, st2⟩
  unfold wrapped_process
  rw [hp]
  match r with
  | .ok (df, fig) => exact ⟨rfl, Or.inl rfl⟩
  | .error (.valueError m) => exact ⟨rfl, Or.inr (Or.inl ⟨m, rfl⟩)⟩
  | .error (.otherExn m) => exact ⟨rfl, Or.inr (Or.inr ⟨m, rfl⟩)⟩

/- ## Fetcher cache claims -/

/-- C6: once `get_pageviews` has returned a sequence for a (title, start, end)
tuple, calling it again with the identical tuple returns the same sequence,
leaves the state unchanged, and issues no second outbound call (the outbound
counter does not move). -/
theorem get_pageviews_idempotent (http : String → String → String → FetchOutcome)
    (st : FetchState) (title start_date end_date : String)
    (v : List (String × Nat)) (st2 : FetchState)
    (h : get_pageviews http st title start_date end_date = (.ok v, st2)) :
    get_pageviews http st2 title start_date end_date = (.ok v, st2)
    ∧ (get_pageviews http st2 title start_date end_date).2.calls = st2.calls := by
  have hmain : get_pageviews http st2 title start_date end_date = (.ok v, st2) := by
    unfold get_pageviews at h ⊢
    rcases hc : cacheLookup st.cache (title, start_date, end_date) with _ | w
    · rw [hc] at h
      rcases hf : fetch_raw http title start_date end_date with e | w
      · rw [hf] at h
        exact absurd h (by simp)
      · rw [hf] at h
        obtain ⟨h1, h2⟩ := Prod.mk.injEq .. ▸ h
        obtain rfl : w = v := Except.ok.inj h1
        subst h2
        have hl : cacheLookup (((title, start_date, end_date), w) :: st.cache)
            (title, start_date, end_date) = some w := by
          unfold cacheLookup
          rw [if_pos rfl]
        rw [hl]
    · rw [hc] at h
      obtain ⟨h1, h2⟩ := Prod.mk.injEq .. ▸ h
      obtain rfl : w = v := Except.ok.inj h1
      subst h2
      rw [hc]
  exact ⟨hmain, by rw [hmain]⟩

/-- Network double for the C6 witness: always succeeds. -/
def http6 : String → String → String → FetchOutcome :=
  fun _ _ _ => .success [("20240101ab", 7)]

/-- C6 witness: a first call from the empty cache stores the sequence and
counts one outbound call; the repeated call is a cache hit. -/
theorem get_pageviews_idempotent_witness :
    get_pageviews http6 ⟨[], 0⟩ "T" "20240101" "20240131"
      = (.ok [("20240101", 7)],
         ⟨[(("T", "20240101", "20240131"), [("20240101", 7)])], 1⟩)
    ∧ (get_pageviews http6 ⟨[(("T", "20240101", "20240131"), [("20240101", 7)])], 1⟩
          "T" "20240101" "20240131"
        = (.ok [("20240101", 7)],
           ⟨[(("T", "20240101", "20240131"), [("20240101", 7)])], 1⟩)
       ∧ (get_pageviews http6 ⟨[(("T", "20240101", "20240131"), [("20240101", 7)])], 1⟩
            "T" "20240101" "20240131").2.calls
          = (⟨[(("T", "20240101", "20240131"), [("20240101", 7)])], 1⟩ : FetchState).calls) :=
  ⟨rfl, get_pageviews_idempotent http6 ⟨[], 0⟩ "T" "20240101" "20240131" _ _ rfl⟩

/-- C9: when `get_pageviews` raises, nothing is stored — `functools.cache`
memoizes successful results only — so the cache is unchanged (while the
outbound counter moved by one), and an identical retry performs a fresh
outbound call (the counter moves again) and reports the same error. -/
theorem get_pageviews_error_not_cached (http : String → String → String → FetchOutcome)
    (st : FetchState) (title start_date end_date : String) (e : Exn) (st2 : FetchState)
    (h : get_pageviews http st title start_date end_date = (.error e, st2)) :
    st2.cache = st.cache
    ∧ st2.calls = st.calls + 1
    ∧ (get_pageviews http st2 title start_date end_date).2.calls = st2.calls + 1
    ∧ (get_pageviews http st2 title start_date end_date).1 = .error e := by
  unfold get_pageviews at h
  rcases hc : cacheLookup st.cache (title, start_date, end_date) with _ | w
  · rw [hc] at h
    rcases hf : fetch_raw http title start_date end_date with e2 | w
    · rw [hf] at h
      obtain ⟨h1, h2⟩ := Prod.mk.injEq .. ▸ h
      obtain rfl : e2 = e := Except.error.inj h1
      subst h2
      have hsecond : get_pageviews http (⟨st.cache, st.calls + 1⟩ : FetchState)
          title start_date end_date
          = (.error e2, ⟨st.cache, st.calls + 1 + 1⟩) := by
        unfold get_pageviews
        rw [show cacheLookup (FetchState.mk st.cache (st.calls + 1)).cache
              (title, start_date, end_date) = none from hc, hf]
      exact ⟨rfl, rfl, by rw [hsecond], by rw [hsecond]⟩
    · rw [hf] at h
      exact absurd h (by simp)
  · rw [hc] at h
    exact absurd h (by simp)

/-- Network double for the C9 witness: always a non-success HTTP status. -/
def http9 : String → String → String → FetchOutcome :=
  fun _ _ _ => .httpError "500 Server Error"

/-- C9 witness: a failing fetch from the empty cache stores nothing, and the
identical retry issues a fresh outbound call with the same error. -/
theorem get_pageviews_error_not_cached_witness :
    get_pageviews http9 ⟨[], 3⟩ "T" "20240101" "20240131"
      = (.error (.valueError ("API error: " ++ "500 Server Error")), ⟨[], 4⟩)
    ∧ ((⟨[], 4⟩ : FetchState).cache = (⟨[], 3⟩ : FetchState).cache
       ∧ (⟨[], 4⟩ : FetchState).calls = (⟨[], 3⟩ : FetchState).calls + 1
       ∧ (get_pageviews http9 ⟨[], 4⟩ "T" "20240101" "20240131").2.calls
          = (⟨[], 4⟩ : FetchState).calls + 1
       ∧ (get_pageviews http9 ⟨[], 4⟩ "T" "20240101" "20240131").1
          = .error (.valueError ("API error: " ++ "500 Server Error"))) :=
  ⟨rfl, get_pageviews_error_not_cached http9 ⟨[], 3⟩ "T" "20240101" "20240131" _ _ rfl⟩

/-- C7: `fetch_raw` (the body of `get_pageviews`) raises exactly when the
remote call does not succeed — a non-success HTTP status yields
`ValueError("API error: <cause>")`, a network failure or an unparseable body
yields `ValueError("Error fetching pageviews: <cause>")` — and when the first
article's fetch hits a non-success status in a fresh submission, the handler
returns the empty table, no chart, and a status beginning
`"Error: API error:"`. -/
theorem fetch_error_spec (env : Env) (st : FetchState)
    (u1 u2 sd ed t1 t2 m : String)
    (hsd : sd ≠ "") (hed : ed ≠ "")
    (hvs : validate_date sd = .ok sd) (hve : validate_date ed = .ok ed)
    (ht1 : extract_title u1 = .ok t1) (ht2 : extract_title u2 = .ok t2)
    (hc : cacheLookup st.cache (t1, sd, ed) = none)
    (hh : env.http t1 sd ed = .httpError m) :
    (∀ title s e, (∃ err, fetch_raw env.http title s e = .error err)
        ↔ ∀ items, env.http title s e ≠ .success items)
    ∧ (∀ title s e mm, env.http title s e = .httpError mm →
        fetch_raw env.http title s e = .error (.valueError ("API error: " ++ mm)))
    ∧ (∀ title s e mm,
        env.http title s e = .getError mm ∨ env.http title s e = .parseError mm →
        fetch_raw env.http title s e
          = .error (.valueError ("Error fetching pageviews: " ++ mm)))
    ∧ (wrapped_process env st u1 u2 sd ed).1
        = (emptyDF, none, "Error: API error: " ++ m) := by
  refine ⟨?_, ?_, ?_, ?_⟩
  · intro title s e
    constructor
    · rintro ⟨err, herr⟩ items hsucc
      unfold fetch_raw at herr
      rw [hsucc] at herr
      exact absurd herr (by simp)
    · intro hns
      cases ho : env.http title s e with
      | success items => exact absurd ho (hns items)
      | httpError mm =>
        exact ⟨.valueError ("API error: " ++ mm), by unfold fetch_raw; rw [ho]⟩
      | getError mm =>
        exact ⟨.valueError ("Error fetching pageviews: " ++ mm),
          by unfold fetch_raw; rw [ho]⟩
      | parseError mm =>
        exact ⟨.valueError ("Error fetching pageviews: " ++ mm),
          by unfold fetch_raw; rw [ho]⟩
  · intro title s e mm hmm
    unfold fetch_raw
    rw [hmm]
  · intro title s e mm hmm
    rcases hmm with hmm | hmm <;> (unfold fetch_raw; rw [hmm])
  · have happ : applyDefaults sd ed env.nowMinus30 env.now = (sd, ed) := by
      unfold applyDefaults
      rw [if_neg]
      push_neg
      exact ⟨hsd, hed⟩
    have hfetch : get_pageviews env.http st t1 sd ed
        = (.error (.valueError ("API error: " ++ m)), ⟨st.cache, st.calls + 1⟩) := by
      unfold get_pageviews
      rw [hc, show fetch_raw env.http t1 sd ed
            = .error (.valueError ("API error: " ++ m)) from by unfold fetch_raw; rw [hh]]
    have hmsg : "Error: " ++ ("API error: " ++ m) = "Error: API error: " ++ m := by
      rw [← String.append_assoc]
      rfl
    unfold wrapped_process process_inputs
    rw [happ]
    unfold process_core
    rw [hvs, hve, ht1, ht2]
    dsimp only
    rw [hfetch]
    dsimp only
    rw [hmsg]

/-- Environment for the C7 witness: a non-success status for article T1 only. -/
def envC7 : Env :=
  ⟨"20240131", "20240101",
   fun t _ _ => if t = "T1" then .httpError "500 Server Error" else .success []⟩

/-- C7 witness: the FetchError property on a fresh submission whose first
article receives a non-success HTTP status. -/
theorem fetch_error_spec_witness :
    ("20240101" ≠ "" ∧ "20240131" ≠ ""
     ∧ validate_date "20240101" = .ok "20240101"
     ∧ validate_date "20240131" = .ok "20240131"
     ∧ extract_title "https://en.wikipedia.org/wiki/T1" = .ok "T1"
     ∧ extract_title "https://en.wikipedia.org/wiki/T2" = .ok "T2"
     ∧ cacheLookup (FetchState.mk [] 0).cache ("T1", "20240101", "20240131") = none
     ∧ envC7.http "T1" "20240101" "20240131" = .httpError "500 Server Error")
    ∧ ((∀ title s e, (∃ err, fetch_raw envC7.http title s e = .error err)
          ↔ ∀ items, envC7.http title s e ≠ .success items)
       ∧ (∀ title s e mm, envC7.http title s e = .httpError mm →
           fetch_raw envC7.http title s e = .error (.valueError ("API error: " ++ mm)))
       ∧ (∀ title s e mm,
           envC7.http title s e = .getError mm ∨ envC7.http title s e = .parseError mm →
           fetch_raw envC7.http title s e
             = .error (.valueError ("Error fetching pageviews: " ++ mm)))
       ∧ (wrapped_process envC7 ⟨[], 0⟩ "https://en.wikipedia.org/wiki/T1"
            "https://en.wikipedia.org/wiki/T2" "20240101" "20240131").1
           = (emptyDF, none, "Error: API error: " ++ "500 Server Error")) :=
  ⟨⟨by decide, by decide, rfl, rfl, rfl, rfl, rfl, rfl⟩,
   fetch_error_spec envC7 ⟨[], 0⟩ "https://en.wikipedia.org/wiki/T1"
     "https://en.wikipedia.org/wiki/T2" "20240101" "20240131" "T1" "T2"
     "500 Server Error" (by decide) (by decide) rfl rfl rfl rfl rfl rfl⟩

/-- C8 (amended): per request the Validator runs before the Extractor — when
a supplied (non-empty) date string is malformed, the submission reports the
date-validation failure regardless of the URLs, so a submission with both a
prefix-less URL and a malformed date reports the date error, not the URL
error. -/
theorem validator_before_extractor (env : Env) (st : FetchState)
    (u1 u2 sd ed m : String) (hsd : sd ≠ "") (hed : ed ≠ "")
    (hv : validate_date sd = .error (.valueError m)) :
    (wrapped_process env st u1 u2 sd ed).1 = (emptyDF, none, "Error: " ++ m) := by
  have happ : applyDefaults sd ed env.nowMinus30 env.now = (sd, ed) := by
    unfold applyDefaults
    rw [if_neg]
    push_neg
    exact ⟨hsd, hed⟩
  unfold wrapped_process process_inputs
  rw [happ]
  unfold process_core
  rw [hv]

/-- Environment for the C8 counterexample and witness. -/
def envC8 : Env := ⟨"20250101", "20241202", fun _ _ _ => .httpError "boom"⟩

/-- C8 counterexample: a submission whose first URL lacks the required prefix
and whose start date is malformed reports the date error, not the URL error,
because the code validates dates (lines 48-49) before extracting titles
(lines 52-53). -/
theorem validator_first_counterexample :
    (wrapped_process envC8 ⟨[], 0⟩ "http://bad" "https://en.wikipedia.org/wiki/X"
        "2024-01-01" "20240131").1.2.2 = "Error: Date must be in YYYYMMDD format"
    ∧ (wrapped_process envC8 ⟨[], 0⟩ "http://bad" "https://en.wikipedia.org/wiki/X"
        "2024-01-01" "20240131").1.2.2 ≠ "Error: URL must be from en.wikipedia.org"
    ∧ extract_title "http://bad" = .error (.valueError "URL must be from en.wikipedia.org") :=
  ⟨rfl, by decide, rfl⟩

/-- C8 witness: the amended ordering property on a concrete submission with a
malformed date and a prefix-less URL. -/
theorem validator_before_extractor_witness :
    ("2024-01-01" ≠ "" ∧ "20240131" ≠ ""
     ∧ validate_date "2024-01-01"
        = .error (.valueError "Date must be in YYYYMMDD format"))
    ∧ (wrapped_process envC8 ⟨[], 0⟩ "http://bad2" "https://en.wikipedia.org/wiki/Y"
        "2024-01-01" "20240131").1
        = (emptyDF, none, "Error: " ++ "Date must be in YYYYMMDD format") :=
  ⟨⟨by decide, by decide, rfl⟩,
   validator_before_extractor envC8 ⟨[], 0⟩ "http://bad2"
     "https://en.wikipedia.org/wiki/Y" "2024-01-01" "20240131"
     "Date must be in YYYYMMDD format" (by decide) (by decide) rfl⟩
